import Mathlib

/-!
Shallow embedding of the profile-sharing app's decision logic:
the credential `authorize` callback (src/server/auth.ts), the optimistic
like-toggle mutation callbacks (src/components/ProfileCard.tsx) and the
profile-settings submit chain (src/pages/settings/profile.tsx).
Effects (network requests, cache writes, toasts, navigation) are made
explicit as event traces; async outcomes are oracle parameters.
-/

namespace App

/-! ## Credential authentication adapter (src/server/auth.ts, `authorize`) -/

/-- A stored user record as selected by the Prisma query in `authorize`:
`select: { id, username, image, password }`, looked up by unique `email`.
`image` and `password` are nullable columns, hence `Option`. -/
structure StoredUser where
  id : String
  username : String
  image : Option String
  password : Option String
  email : String
deriving DecidableEq, Repr

/-- The value `authorize` returns on success: `{ id, username, image }`.
There is no password field in this type, mirroring the object literal at
src/server/auth.ts:91-95. -/
structure NextAuthUser where
  id : String
  username : String
  image : Option String
deriving DecidableEq, Repr

/-- JavaScript truthiness of an optional string: `undefined`/`null` and the
empty string are falsy, every other string is truthy. -/
def truthy : Option String → Bool
  | none => false
  | some s => !(s == "")

/-- `prisma.user.findUnique({ where: { email } })`: the record whose email
matches, if any (`email` is a unique column, modelled as first match). -/
def findUserByEmail (db : List StoredUser) (email : String) : Option StoredUser :=
  db.find? (fun u => u.email == email)

/-- The JS expression
`user.password && credentials?.password && bcrypt.compare(password, hash)`
(src/server/auth.ts:82-85): `&&` short-circuits on JS truthiness, so the
comparison is only reached when both strings are present and non-empty.
`compare pw hash` stands for `await bcrypt.compare(pw, hash)`. -/
def passwordMatches (compare : String → String → Bool)
    (stored supplied : Option String) : Bool :=
  match stored, supplied with
  | some hash, some pw => !(hash == "") && !(pw == "") && compare pw hash
  | _, _ => false

/-- The `authorize` callback of the credentials provider
(src/server/auth.ts:65-96). `password` is `credentials?.password`
(possibly absent). -/
def authorize (compare : String → String → Bool) (db : List StoredUser)
    (email : String) (password : Option String) : Except String NextAuthUser :=
  match findUserByEmail db email with
  | none => .error "No user found"
  | some user =>
    if passwordMatches compare user.password password then
      .ok ⟨user.id, user.username, user.image⟩
    else
      .error "Password does not match"

/-- Whether the evaluation of `authorize` reaches the `bcrypt.compare` call:
the JS `&&` chain evaluates `bcrypt.compare` iff a user was found and both
the stored hash and the supplied password are truthy. -/
def authorizeCompareInvoked (db : List StoredUser)
    (email : String) (password : Option String) : Bool :=
  match findUserByEmail db email with
  | none => false
  | some user => truthy user.password && truthy password

/-! ## Optimistic like toggle (src/components/ProfileCard.tsx, `likeProfile`) -/

/-- The cached `getProfile` payload, restricted to the fields the like-toggle
callbacks read or write (`authUserHasLiked`, `likeCount`) plus identifying
fields carried along by the object spreads. `likeCount` is a JS number
adjusted by `+1`/`-1`, so `Int`. -/
structure ProfileData where
  id : String
  username : String
  tagline : Option String
  authUserHasLiked : Bool
  likeCount : Int
deriving DecidableEq, Repr

/-- Events produced by the like-toggle mutation. -/
inductive LikeEvent where
  | cancelGetProfile
  | setCache (d : ProfileData)
  | sendLikeRequest
  | toastError (msg : String)
  | invalidateGetProfile
deriving DecidableEq, Repr

/-- The optimistic cache value written by `onMutate`
(src/components/ProfileCard.tsx:66-70): spread of the previous value with
`authUserHasLiked` negated and `likeCount` adjusted by
`previous.authUserHasLiked ? -1 : 1`. -/
def optimisticUpdate (previous : ProfileData) : ProfileData :=
  { previous with
      authUserHasLiked := !previous.authUserHasLiked,
      likeCount := previous.likeCount + (if previous.authUserHasLiked then -1 else 1) }

/-- `onMutate` (src/components/ProfileCard.tsx:59-73): cancel the in-flight
`getProfile` query, snapshot the cached value, and—only when a cached value
exists—write the optimistic value. Returns (events, new cache, returned
context/snapshot). -/
def likeOnMutate (cache : Option ProfileData) :
    List LikeEvent × Option ProfileData × Option ProfileData :=
  match cache with
  | none => ([.cancelGetProfile], none, none)
  | some previous =>
      ([.cancelGetProfile, .setCache (optimisticUpdate previous)],
       some (optimisticUpdate previous), some previous)

/-- The cache value written by the `onError` rollback
(src/components/ProfileCard.tsx:77-82): if the `profileData` prop is absent
do nothing, else write the prop spread with only `authUserHasLiked`
negated. Note: this uses the component prop, not the snapshot returned by
`onMutate`, and does not touch `likeCount`. -/
def likeOnError (profileData : Option ProfileData) (cache : Option ProfileData) :
    List LikeEvent × Option ProfileData :=
  match profileData with
  | none => ([.toastError "Could not like!"], cache)
  | some p =>
      ([.toastError "Could not like!",
        .setCache { p with authUserHasLiked := !p.authUserHasLiked }],
       some { p with authUserHasLiked := !p.authUserHasLiked })

/-- One full `likeProfile` round: `onMutate` runs, the request is sent, the
server answers (`serverOk`), on error the `onError` rollback runs, and
`onSettled` invalidates. `profileData` is the component prop captured by the
callback closures; `cache` is the client cache entry for the profile.
Returns the event trace and the final cache value (as left by the callbacks,
before the settled refetch replaces it with server truth). -/
def likeProfileFlow (profileData cache : Option ProfileData) (serverOk : Bool) :
    List LikeEvent × Option ProfileData :=
  let m := likeOnMutate cache
  if serverOk then
    (m.1 ++ [.sendLikeRequest] ++ [.invalidateGetProfile], m.2.1)
  else
    let e := likeOnError profileData m.2.1
    (m.1 ++ [.sendLikeRequest] ++ e.1 ++ [.invalidateGetProfile], e.2)

/-! ## Profile settings submit chain (src/pages/settings/profile.tsx) -/

/-- The form values of the settings form (`EditProfileInput`); react-hook-form
defaults both fields to `''`, so an untouched field is the empty string. -/
structure EditProfileInput where
  username : String
  tagline : String
deriving DecidableEq, Repr

/-- Events produced by the settings-page submit chain. -/
inductive SubmitEvent where
  | setLoading (b : Bool)
  | setImageRequest
  | axiosPut (target : String)
  | editProfileRequest (username tagline : String)
  | sessionUpdate
  | navigate (target : String)
  | toastError (msg : String)
deriving DecidableEq, Repr

/-- The synchronous body of `handleFormSubmit`
(src/pages/settings/profile.tsx:106-121): set loading, fire the `setImage`
mutation when a file is staged (`setImage()` is not awaited), then fire the
`editProfile` mutation when `(username && username.length) || (tagline &&
tagline.length)`, else clear loading. Both mutation calls are
fire-and-forget; their callbacks run later. -/
def handleFormSubmit (file : Bool) (v : EditProfileInput) : List SubmitEvent :=
  [.setLoading true]
    ++ (if file then [.setImageRequest] else [])
    ++ (if v.username ≠ "" ∨ v.tagline ≠ "" then
          [.editProfileRequest v.username v.tagline]
        else [.setLoading false])

/-- `editProfile.useMutation`'s `onSuccess`
(src/pages/settings/profile.tsx:58-61): `update(); push(`/${data.username}`)`. -/
def editProfileOnSuccess (dataUsername : String) : List SubmitEvent :=
  [.sessionUpdate, .navigate ("/" ++ dataUsername)]

/-- `setImage.useMutation`'s `onSuccess`
(src/pages/settings/profile.tsx:79-86): `await axios.put(result, file)`, then
`if (!getValues().username && !getValues().username)` refresh the session and
`push(`/${session?.user.username}`)`. The condition tests the username field
twice and never reads the tagline; the navigation target comes from the
session, not the form. If the PUT rejects (`putOk = false`) the `await`
throws and nothing after it runs. -/
def setImageOnSuccess (result : String) (v : EditProfileInput)
    (sessionUsername : String) (putOk : Bool) : List SubmitEvent :=
  [.axiosPut result]
    ++ (if putOk then
          (if v.username = "" ∧ v.username = "" then
            [.sessionUpdate, .navigate ("/" ++ sessionUsername)]
          else [])
        else [])

/-- One full `submitProfile` run: the synchronous `handleFormSubmit` body
issues the requests, then the `setImage` mutation settles (`uploadTarget` is
the presigned-URL outcome, `putOk` the byte-transfer outcome), then the
`editProfile` mutation settles (`editOutcome` carries the username returned
by the update). Error callbacks are `handleErrors` with a toast and
`setLoading(false)`. The request issuance happens in the synchronous body,
before either settle. -/
def submitProfileChain (file : Bool) (v : EditProfileInput)
    (sessionUsername : String) (uploadTarget : Except String String)
    (putOk : Bool) (editOutcome : Except String String) : List SubmitEvent :=
  handleFormSubmit file v
    ++ (if file then
          match uploadTarget with
          | .ok result => setImageOnSuccess result v sessionUsername putOk
          | .error _ => [.toastError "Failed to set image!", .setLoading false]
        else [])
    ++ (if v.username ≠ "" ∨ v.tagline ≠ "" then
          match editOutcome with
          | .ok newUsername => editProfileOnSuccess newUsername
          | .error _ => [.toastError "Failed to edit profile!", .setLoading false]
        else [])

/-! ## Theorems -/

/-- A sample stored record used by concrete witnesses. -/
def sampleUser : StoredUser :=
  ⟨"u1", "alice", none, some "hashedpw", "a@x.com"⟩

/-- Helper: `passwordMatches` is the truthiness-guarded comparison, `true`
exactly when the stored hash is truthy, the supplied password is truthy and
the comparison succeeds. -/
theorem passwordMatches_eq_truthy (compare : String → String → Bool)
    (stored supplied : Option String) :
    passwordMatches compare stored supplied =
      (truthy stored && truthy supplied &&
        compare (supplied.getD "") (stored.getD "")) := by
  cases stored <;> cases supplied <;> simp [passwordMatches, truthy]

/-- C4: when no stored record matches the email, `authorize` fails with the
"No user found" error (for any hash-comparison function) and the
`bcrypt.compare` call is never reached. -/
theorem authorize_no_user (compare : String → String → Bool)
    (db : List StoredUser) (email : String) (password : Option String)
    (h : findUserByEmail db email = none) :
    authorize compare db email password = .error "No user found" ∧
    authorizeCompareInvoked db email password = false := by
  constructor
  · unfold authorize
    rw [h]
  · unfold authorizeCompareInvoked
    rw [h]

/-- Witness for C4 at a concrete input: the empty user table. -/
theorem authorize_no_user_witness :
    authorize (fun _ _ => true) [] "a@x.com" (some "pw") =
        .error "No user found" ∧
    authorizeCompareInvoked [] "a@x.com" (some "pw") = false :=
  authorize_no_user (fun _ _ => true) [] "a@x.com" (some "pw") rfl

/-- C5: when a stored record matches the email, `authorize` succeeds iff the
stored password hash is present (truthy), the supplied password is present
(truthy) and the hash comparison returns true; in every other case it fails
with the "Password does not match" error. -/
theorem authorize_matched (compare : String → String → Bool)
    (db : List StoredUser) (email : String) (password : Option String)
    (user : StoredUser) (h : findUserByEmail db email = some user) :
    ((∃ v, authorize compare db email password = .ok v) ↔
      (truthy user.password && truthy password &&
        compare (password.getD "") (user.password.getD "")) = true) ∧
    ((truthy user.password && truthy password &&
        compare (password.getD "") (user.password.getD "")) = false →
      authorize compare db email password = .error "Password does not match") := by
  have hform : authorize compare db email password =
      if passwordMatches compare user.password password then
        .ok ⟨user.id, user.username, user.image⟩
      else .error "Password does not match" := by
    unfold authorize
    rw [h]
  rw [hform, passwordMatches_eq_truthy]
  cases hb : (truthy user.password && truthy password &&
      compare (password.getD "") (user.password.getD "")) <;> simp [hb]

/-- Witness for C5 at a concrete input: a matching record with hash
"hashedpw", supplied password "hashedpw", comparison = string equality. -/
theorem authorize_matched_witness :
    ((∃ v, authorize (fun pw hash => pw == hash) [sampleUser] "a@x.com"
        (some "hashedpw") = .ok v) ↔
      (truthy sampleUser.password && truthy (some "hashedpw") &&
        (fun pw hash => pw == hash) ((some "hashedpw").getD "")
          (sampleUser.password.getD "")) = true) ∧
    ((truthy sampleUser.password && truthy (some "hashedpw") &&
        (fun pw hash => pw == hash) ((some "hashedpw").getD "")
          (sampleUser.password.getD "")) = false →
      authorize (fun pw hash => pw == hash) [sampleUser] "a@x.com"
        (some "hashedpw") = .error "Password does not match") :=
  authorize_matched (fun pw hash => pw == hash) [sampleUser] "a@x.com"
    (some "hashedpw") sampleUser rfl

/-- C6: every successful `authorize` result is exactly the
`{id, username, image}` projection of the matched record; the type
`NextAuthUser` has no password field, so the hash is never returned. -/
theorem authorize_success_projection (compare : String → String → Bool)
    (db : List StoredUser) (email : String) (password : Option String)
    (v : NextAuthUser)
    (h : authorize compare db email password = .ok v) :
    ∃ user, findUserByEmail db email = some user ∧
      v = ⟨user.id, user.username, user.image⟩ := by
  unfold authorize at h
  split at h
  · exact absurd h (by simp)
  · rename_i user heq
    split at h
    · injection h with h1
      exact ⟨user, heq, h1.symm⟩
    · exact absurd h (by simp)

/-- Witness for C6 at a concrete input: the sample record with the correct
password yields exactly the public projection. -/
theorem authorize_success_projection_witness :
    ∃ user, findUserByEmail [sampleUser] "a@x.com" = some user ∧
      (⟨"u1", "alice", none⟩ : NextAuthUser) =
        ⟨user.id, user.username, user.image⟩ :=
  authorize_success_projection (fun pw hash => pw == hash) [sampleUser]
    "a@x.com" (some "hashedpw") ⟨"u1", "alice", none⟩ rfl

/-- C3: when a cached profile entry exists, initiating the like toggle
immediately (before the request is sent, hence before any server response)
writes the optimistic state: liked flag negated, like count adjusted by
`+1` if previously unliked and `-1` if previously liked; the first three
events of every flow are cancel, optimistic cache write, request send,
independent of the eventual server outcome. -/
theorem likeProfile_optimistic_update (profileData : Option ProfileData)
    (prev : ProfileData) (serverOk : Bool) :
    (likeOnMutate (some prev)).2.1 =
      some { prev with
        authUserHasLiked := !prev.authUserHasLiked,
        likeCount := prev.likeCount +
          (if prev.authUserHasLiked then -1 else 1) } ∧
    (likeProfileFlow profileData (some prev) serverOk).1.take 3 =
      [.cancelGetProfile,
       .setCache { prev with
         authUserHasLiked := !prev.authUserHasLiked,
         likeCount := prev.likeCount +
           (if prev.authUserHasLiked then -1 else 1) },
       .sendLikeRequest] := by
  constructor
  · rfl
  · cases serverOk <;>
      simp [likeProfileFlow, likeOnMutate, likeOnError, optimisticUpdate]

/-- C9: when the cache holds no previous profile entry, `onMutate` leaves
the cache entirely unchanged and writes nothing (no `setCache` event), yet
the like request is still sent: the flow starts with exactly the cancel
event followed by the request send. -/
theorem likeProfile_no_cache_entry (profileData : Option ProfileData)
    (serverOk : Bool) :
    likeOnMutate none = ([.cancelGetProfile], none, none) ∧
    (likeProfileFlow profileData none serverOk).1.take 2 =
      [.cancelGetProfile, .sendLikeRequest] := by
  constructor
  · rfl
  · cases serverOk <;> cases profileData <;>
      simp [likeProfileFlow, likeOnMutate, likeOnError]

/-- C2 (code bug evaluation): starting from cached state
{liked := false, count := 5} with the component prop equal to it, a failed
toggle leaves the cache at {liked := true, count := 5} — the `onError`
handler writes the prop with the flag negated instead of restoring the
snapshot captured (and returned) by `onMutate` — so the final state differs
from the pre-toggle snapshot. -/
theorem likeProfile_failed_rollback_diverges :
    (likeProfileFlow (some ⟨"u1", "alice", none, false, 5⟩)
        (some ⟨"u1", "alice", none, false, 5⟩) false).2 =
      some ⟨"u1", "alice", none, true, 5⟩ ∧
    (likeProfileFlow (some ⟨"u1", "alice", none, false, 5⟩)
        (some ⟨"u1", "alice", none, false, 5⟩) false).2 ≠
      some ⟨"u1", "alice", none, false, 5⟩ := by
  constructor
  · rfl
  · decide

/-- C7: submitting with no staged file, an empty username and an empty
tagline produces exactly `setLoading true` then `setLoading false`: zero
server calls (no upload-target request, no byte transfer, no profile-update
call) and the controller returns to idle, whatever the oracle outcomes. -/
theorem submitProfile_noop (sessionUsername : String)
    (uploadTarget : Except String String) (putOk : Bool)
    (editOutcome : Except String String) :
    submitProfileChain false ⟨"", ""⟩ sessionUsername uploadTarget putOk
        editOutcome =
      [.setLoading true, .setLoading false] := by
  simp [submitProfileChain, handleFormSubmit]

/-- C8: whenever the profile-update call is issued and succeeds, the chain
ends with the session refresh immediately followed by the navigation to
`"/" ++` the username returned by the update, in that order. -/
theorem editProfile_success_update_then_navigate (file : Bool)
    (v : EditProfileInput) (sessionUsername newUsername : String)
    (uploadTarget : Except String String) (putOk : Bool)
    (h : v.username ≠ "" ∨ v.tagline ≠ "") :
    ∃ pre, submitProfileChain file v sessionUsername uploadTarget putOk
        (.ok newUsername) =
      pre ++ [.sessionUpdate, .navigate ("/" ++ newUsername)] := by
  refine ⟨handleFormSubmit file v ++
    (if file then
      match uploadTarget with
      | .ok result => setImageOnSuccess result v sessionUsername putOk
      | .error _ => [.toastError "Failed to set image!", .setLoading false]
    else []), ?_⟩
  unfold submitProfileChain
  rw [if_pos h]
  simp [editProfileOnSuccess]

/-- Witness for C8 at a concrete input: username "bob" submitted, update
returns "bob", no staged file. -/
theorem editProfile_success_update_then_navigate_witness :
    ∃ pre, submitProfileChain false ⟨"bob", ""⟩ "old" (.ok "target") true
        (.ok "bob") =
      pre ++ [.sessionUpdate, .navigate ("/" ++ "bob")] :=
  editProfile_success_update_then_navigate false ⟨"bob", ""⟩ "old" "bob"
    (.ok "target") true (by decide)

/-- C10: after a successful byte transfer in `setImage`'s `onSuccess`, the
early session-refresh-and-navigate branch is taken exactly when the
username form field is empty (the code tests the username field twice and
never reads the tagline, so the events are identical for any two taglines),
and the navigation target is `"/" ++` the session's username. -/
theorem setImage_success_early_branch (result sessionUsername u t t' :
    String) :
    setImageOnSuccess result ⟨u, t⟩ sessionUsername true =
      .axiosPut result ::
        (if u = "" then
          [.sessionUpdate, .navigate ("/" ++ sessionUsername)]
        else []) ∧
    setImageOnSuccess result ⟨u, t⟩ sessionUsername true =
      setImageOnSuccess result ⟨u, t'⟩ sessionUsername true := by
  constructor
  · by_cases hu : u = "" <;> simp [setImageOnSuccess, hu]
  · rfl

/-- C1 (counterexample): with a staged file, username "bob" and a failing
upload-target request, the profile-update call is still issued — the trace
contains both the upload-failure toast and the `editProfileRequest` — so
an upload failure does not prevent the profile-update call. -/
theorem submitProfile_upload_failure_still_edits :
    .toastError "Failed to set image!" ∈
      submitProfileChain true ⟨"bob", ""⟩ "old" (.error "network") true
        (.ok "bob") ∧
    .editProfileRequest "bob" "" ∈
      submitProfileChain true ⟨"bob", ""⟩ "old" (.error "network") true
        (.ok "bob") := by
  decide

/-- C1 (amended): with a staged file and a non-empty text field, the
upload-target request is issued before the profile-update call in program
order, but the upload is not awaited: the profile-update call is issued in
the same synchronous handler, and a subsequent upload failure surfaces a
toast error and clears the loading flag without retracting it. -/
theorem submitProfile_upload_not_awaited (v : EditProfileInput)
    (sessionUsername msg : String) (putOk : Bool)
    (editOutcome : Except String String)
    (h : v.username ≠ "" ∨ v.tagline ≠ "") :
    ∃ rest, submitProfileChain true v sessionUsername (.error msg) putOk
        editOutcome =
      .setLoading true :: .setImageRequest ::
        .editProfileRequest v.username v.tagline ::
        .toastError "Failed to set image!" :: .setLoading false :: rest := by
  refine ⟨(if v.username ≠ "" ∨ v.tagline ≠ "" then
    match editOutcome with
    | .ok newUsername => editProfileOnSuccess newUsername
    | .error _ => [.toastError "Failed to edit profile!", .setLoading false]
  else []), ?_⟩
  unfold submitProfileChain handleFormSubmit
  rw [if_pos h]
  simp

/-- Witness for the amended C1 at a concrete input: staged file, username
"bob", upload-target request fails, profile update succeeds. -/
theorem submitProfile_upload_not_awaited_witness :
    ∃ rest, submitProfileChain true ⟨"bob", ""⟩ "old" (.error "network")
        true (.ok "bob") =
      .setLoading true :: .setImageRequest ::
        .editProfileRequest "bob" "" ::
        .toastError "Failed to set image!" :: .setLoading false :: rest :=
  submitProfile_upload_not_awaited ⟨"bob", ""⟩ "old" "network" true
    (.ok "bob") (by decide)

end App
